import Mathlib

/-!
Shallow embedding of the dmpbbo core (dynamical systems, RBFN function
approximator, and their json (de)serialization) and proofs of the claims
about it.

Scalars are modelled as real numbers; Eigen vectors as `List ℝ`, Eigen
matrices as `List (List ℝ)` (row major).  The real exponential of the
C++ source (`std::exp` / Eigen `.exp()`) is passed to the embedded
definitions as an explicit function argument `rexp : ℝ → ℝ` so that the
definitions stay computable; every theorem instantiates it with
`Real.exp`.
-/

noncomputable section

namespace DmpBbo

/-! ### Vector arithmetic on `List ℝ` (Eigen coefficient-wise operations) -/

/-- Eigen `v + w` on vectors. -/
def vadd (v w : List ℝ) : List ℝ := List.zipWith (· + ·) v w

/-- Eigen `c * v` (scalar times vector). -/
def smul (c : ℝ) (v : List ℝ) : List ℝ := v.map (fun a => c * a)

/-- Eigen `v / c` (vector divided by scalar). -/
def sdiv (v : List ℝ) (c : ℝ) : List ℝ := v.map (fun a => a / c)

/-! ### The DynamicalSystem base class -/

/-- `DynamicalSystem::integration_method_ ∈ {EULER, RUNGE_KUTTA}`. -/
inductive IntegrationMethod where
  | EULER : IntegrationMethod
  | RUNGE_KUTTA : IntegrationMethod
deriving DecidableEq, Repr

/-- The `DynamicalSystem` base class (DynamicalSystem.cpp).  The virtual
method `differentialEquation` is modelled as a function field `diffEq`;
`dim_ = initial_state.size() * order` and `dim_orig_ = initial_state.size()`
are derived below, exactly as the constructor computes them. -/
structure DynamicalSystem where
  order : ℕ
  tau : ℝ
  initial_state : List ℝ
  attractor_state : List ℝ
  integration_method : IntegrationMethod
  diffEq : List ℝ → List ℝ

/-- `dim_(initial_state.size() * order)` from the constructor. -/
def DynamicalSystem.dim (s : DynamicalSystem) : ℕ :=
  s.initial_state.length * s.order

/-- `dim_orig_(initial_state.size())` from the constructor. -/
def DynamicalSystem.dimOrig (s : DynamicalSystem) : ℕ :=
  s.initial_state.length

/-- `DynamicalSystem::integrateStepEuler`:
`differentialEquation(x, xd_updated); x_updated = x + dt * xd_updated;`. -/
def integrateStepEuler (f : List ℝ → List ℝ) (dt : ℝ) (x : List ℝ) :
    List ℝ × List ℝ :=
  let xd_updated := f x
  (vadd x (smul dt xd_updated), xd_updated)

/-- `DynamicalSystem::integrateStepRungeKutta`: 4th-order Runge-Kutta:
`k1 = f(x); k2 = f(x + dt*0.5*k1); k3 = f(x + dt*0.5*k2); k4 = f(x + dt*k3);
x_updated = x + dt * (k1 + 2.0 * (k2 + k3) + k4) / 6.0;`
and the derivative is re-evaluated at `x_updated`. -/
def integrateStepRungeKutta (f : List ℝ → List ℝ) (dt : ℝ) (x : List ℝ) :
    List ℝ × List ℝ :=
  let k1 := f x
  let input_k2 := vadd x (smul (dt * 0.5) k1)
  let k2 := f input_k2
  let input_k3 := vadd x (smul (dt * 0.5) k2)
  let k3 := f input_k3
  let input_k4 := vadd x (smul dt k3)
  let k4 := f input_k4
  let x_updated := vadd x (sdiv (smul dt (vadd (vadd k1 (smul 2 (vadd k2 k3))) k4)) 6)
  (x_updated, f x_updated)

/-- `DynamicalSystem::integrateStep`: asserts `dt > 0.0` and
`x.size() == dim()` (modelled as returning `none` when the precondition
fails) and dispatches on `integration_method_`. -/
def integrateStep (s : DynamicalSystem) (dt : ℝ) (x : List ℝ) :
    Option (List ℝ × List ℝ) :=
  if 0 < dt ∧ x.length = s.dim then
    some (if s.integration_method = IntegrationMethod.RUNGE_KUTTA then
            integrateStepRungeKutta s.diffEq dt x
          else
            integrateStepEuler s.diffEq dt x)
  else
    none

/-! ### ExponentialSystem (ExponentialSystem.cpp) -/

/-- The `ExponentialSystem` class: a first-order system
`xd = alpha * (attractor_state - x) / tau`.  The base-class field
`integration_method_` is included; the constructor (below) initializes it
to `RUNGE_KUTTA` as `DynamicalSystem`'s constructor does. -/
structure ExponentialSystem where
  tau : ℝ
  y_init : List ℝ
  y_attr : List ℝ
  alpha : ℝ
  integration_method : IntegrationMethod

/-- The `ExponentialSystem(tau, y_init, y_attr, alpha)` constructor; the
base-class constructor sets `integration_method_(RUNGE_KUTTA)`. -/
def mkExponentialSystem (tau : ℝ) (y_init y_attr : List ℝ) (alpha : ℝ) :
    ExponentialSystem :=
  { tau := tau, y_init := y_init, y_attr := y_attr, alpha := alpha,
    integration_method := IntegrationMethod.RUNGE_KUTTA }

/-- `dim()` of an `ExponentialSystem`: the base constructor is called with
`order = 1`, so `dim_ = initial_state.size() * 1`. -/
def ExponentialSystem.dim (s : ExponentialSystem) : ℕ := s.y_init.length * 1

/-- `ExponentialSystem::differentialEquation`:
`xd = alpha_ * (attractor_state - x) / tau()`, coefficient-wise. -/
def ExponentialSystem.differentialEquation (s : ExponentialSystem)
    (x : List ℝ) : List ℝ :=
  List.zipWith (fun ya xi => s.alpha * (ya - xi) / s.tau) s.y_attr x

/-- The time-major (`T × dim`) part of `ExponentialSystem::analyticalSolution`
(before the possible final transpose):
`val_range = initial_state() - attractor_state()`,
`pos_scale[t] = exp(-alpha_ * ts[t] / tau())`,
`vel_scale[t] = -(alpha_ / tau()) * pos_scale[t]`,
`xs[t][d] = val_range[d] * pos_scale[t] + attractor_state()[d]`,
`xds[t][d] = val_range[d] * vel_scale[t]`.
`rexp` stands for the real exponential used by the source. -/
def analyticalSolutionTimeMajor (rexp : ℝ → ℝ) (s : ExponentialSystem)
    (ts : List ℝ) : List (List ℝ) × List (List ℝ) :=
  ( ts.map (fun t =>
      List.zipWith (fun y0 ya => (y0 - ya) * rexp (-s.alpha * t / s.tau) + ya)
        s.y_init s.y_attr)
  , ts.map (fun t =>
      List.zipWith
        (fun y0 ya => (y0 - ya) * (-(s.alpha / s.tau) * rexp (-s.alpha * t / s.tau)))
        s.y_init s.y_attr) )

/-- Eigen `transposeInPlace()` on a row-major `rows × cols` matrix, given the
column count of the original matrix: entry `(c, r)` of the result is entry
`(r, c)` of the argument. -/
def transposeMat (m : List (List ℝ)) (cols : ℕ) : List (List ℝ) :=
  (List.range cols).map (fun c => m.map (fun row => row.getD c 0))

/-- `ExponentialSystem::analyticalSolution(ts, xs, xds)`.  Only the shape
(`rows × cols`) of the caller-supplied `xs` buffer is observable, so it is
passed as `xs_rows, xs_cols`:
`caller_expects_transposed = (xs.rows() == dim() && xs.cols() == T)`;
the solution is computed time-major (`T × dim`) and transposed in place at
the end iff that test held. -/
def ExponentialSystem.analyticalSolution (rexp : ℝ → ℝ)
    (s : ExponentialSystem) (ts : List ℝ) (xs_rows xs_cols : ℕ) :
    List (List ℝ) × List (List ℝ) :=
  let sol := analyticalSolutionTimeMajor rexp s ts
  if xs_rows = s.dim ∧ xs_cols = ts.length then
    (transposeMat sol.1 s.dim, transposeMat sol.2 s.dim)
  else
    sol

/-! ### A model of nlohmann json documents -/

/-- A json value: number, string, array or object.  Numbers are real
(the source stores doubles and ints in them). -/
inductive JsonVal where
  | num : ℝ → JsonVal
  | str : String → JsonVal
  | arr : List JsonVal → JsonVal
  | obj : List (String × JsonVal) → JsonVal

/-- `j.at(key)` / `j[key]` lookup on an object (as a non-throwing lookup:
`none` models both a missing key and nlohmann's thrown `out_of_range`). -/
def jsonAt (j : JsonVal) (key : String) : Option JsonVal :=
  match j with
  | JsonVal.obj kvs => (kvs.find? (fun kv => kv.1 == key)).map (fun kv => kv.2)
  | _ => none

/-- `j[key] = v` on an object: replace the value if the key is present
(nlohmann objects are key-unique maps), else append the pair. -/
def jsonSet (kvs : List (String × JsonVal)) (key : String) (v : JsonVal) :
    List (String × JsonVal) :=
  if kvs.any (fun kv => kv.1 == key) then
    kvs.map (fun kv => if kv.1 == key then (key, v) else kv)
  else
    kvs ++ [(key, v)]

/-- Modelled from the spec: the `eigen_json` serializer for an Eigen vector
(eigen_json.hpp/cpp is not among the sources); §6 of the spec gives the
wire form `{"values": [float, ...]}`. -/
def vectorToJson (v : List ℝ) : JsonVal :=
  JsonVal.obj [("values", JsonVal.arr (v.map JsonVal.num))]

/-- Modelled from the spec: the `eigen_json` serializer for an Eigen matrix;
§6 of the spec gives the wire form `{"values": [[float, ...], ...]}`. -/
def matrixToJson (m : List (List ℝ)) : JsonVal :=
  JsonVal.obj
    [("values", JsonVal.arr (m.map (fun row => JsonVal.arr (row.map JsonVal.num))))]

/-- `from_json_to_double`: read a json number. -/
def from_json_to_double (j : JsonVal) : Option ℝ :=
  match j with
  | JsonVal.num r => some r
  | _ => none

/-- Reading a list of json numbers; any non-number entry fails the whole
read (nlohmann type error). -/
def jsonNums : List JsonVal → Option (List ℝ)
  | [] => some []
  | v :: vs =>
    (from_json_to_double v).bind (fun r => (jsonNums vs).map (fun rs => r :: rs))

/-- Reading an Eigen vector from a json array of numbers
(`VectorXd y = j.at(...)`, via eigen_json). -/
def jsonToVector (j : JsonVal) : Option (List ℝ) :=
  match j with
  | JsonVal.arr l => jsonNums l
  | _ => none

/-- Reading the rows of an Eigen matrix: each row a json array of
numbers. -/
def jsonRows : List JsonVal → Option (List (List ℝ))
  | [] => some []
  | v :: vs =>
    (jsonToVector v).bind (fun r => (jsonRows vs).map (fun rs => r :: rs))

/-- Reading an Eigen matrix from a json array of arrays of numbers. -/
def jsonToMatrix (j : JsonVal) : Option (List (List ℝ)) :=
  match j with
  | JsonVal.arr rows => jsonRows rows
  | _ => none

/-! ### DynamicalSystem json (de)serialization -/

/-- `DynamicalSystem::to_json_base` for an `ExponentialSystem`: the fields
written by the base class. -/
def to_json_base (s : ExponentialSystem) : List (String × JsonVal) :=
  [ ("dim_", JsonVal.num s.dim)
  , ("dim_orig_", JsonVal.num s.y_init.length)
  , ("tau_", JsonVal.num s.tau)
  , ("initial_state_", vectorToJson s.y_init)
  , ("attractor_state_", vectorToJson s.y_attr)
  , ("integration_method_",
      JsonVal.str (if s.integration_method = IntegrationMethod.EULER
                   then "EULER" else "RUNGE_KUTTA"))
  , ("py/object", JsonVal.str "dynamicalsystems.DynamicalSystem.DynamicalSystem") ]

/-- `ExponentialSystem::to_json_helper`: the base fields, then
`j["alpha_"] = alpha_` and the `py/object` discriminator overwritten with
`"dynamicalsystems.ExponentialSystem.ExponentialSystem"`. -/
def ExponentialSystem.to_json_helper (s : ExponentialSystem) : JsonVal :=
  JsonVal.obj
    (jsonSet
      (jsonSet (to_json_base s) "alpha_" (JsonVal.num s.alpha))
      "py/object"
      (JsonVal.str "dynamicalsystems.ExponentialSystem.ExponentialSystem"))

/-- `from_json(const nlohmann::json&, ExponentialSystem*&)`: reads `tau_`,
`alpha_`, `initial_state_.values`, `attractor_state_.values` and calls the
constructor (which defaults the integration method to `RUNGE_KUTTA`).
`none` models a thrown `json::out_of_range`/type error. -/
def exponentialSystemFromJson (j : JsonVal) : Option ExponentialSystem := do
  let tau ← (jsonAt j "tau_").bind from_json_to_double
  let alpha ← (jsonAt j "alpha_").bind from_json_to_double
  let y_init ← ((jsonAt j "initial_state_").bind (fun v => jsonAt v "values")).bind jsonToVector
  let y_attr ← ((jsonAt j "attractor_state_").bind (fun v => jsonAt v "values")).bind jsonToVector
  pure (mkExponentialSystem tau y_init y_attr alpha)

/-! ### Polymorphic DynamicalSystem deserialization (DynamicalSystem.cpp) -/

/-- The four concrete `DynamicalSystem` variants the deserializer knows. -/
inductive DynSysTag where
  | exponential : DynSysTag
  | sigmoid : DynSysTag
  | springDamper : DynSysTag
  | time : DynSysTag
deriving DecidableEq, Repr

/-- `startsWithChars pat l`: `l` begins with the pattern `pat`. -/
def startsWithChars : List Char → List Char → Bool
  | [], _ => true
  | _ :: _, [] => false
  | a :: as, b :: bs => a == b && startsWithChars as bs

/-- `std::string::find(pat) != std::string::npos`: `pat` occurs as a
contiguous substring of the text. -/
def containsSubstring : List Char → List Char → Bool
  | [], pat => startsWithChars pat []
  | c :: t, pat => startsWithChars pat (c :: t) || containsSubstring t pat

/-- `class_name.find(pat) != string::npos` on strings. -/
def strContainsSub (class_name pat : String) : Bool :=
  containsSubstring class_name.toList pat.toList

/-- `from_json(const nlohmann::json&, DynamicalSystem*&)` given the
`py/object` discriminator string: tries the four variant names in order by
substring match; an unrecognized name yields a null object (`none`) and the
`cerr` diagnostic message (`some msg`). -/
def dynamicalSystemFromJsonByName (class_name : String) :
    Option DynSysTag × Option String :=
  if strContainsSub class_name "ExponentialSystem" then
    (some DynSysTag.exponential, none)
  else if strContainsSub class_name "SigmoidSystem" then
    (some DynSysTag.sigmoid, none)
  else if strContainsSub class_name "SpringDamperSystem" then
    (some DynSysTag.springDamper, none)
  else if strContainsSub class_name "TimeSystem" then
    (some DynSysTag.time, none)
  else
    (none, some ("Unknown DynamicalSystem: " ++ class_name))

/-- The dispatch order of the four variant names in
`from_json(const nlohmann::json&, DynamicalSystem*&)`. -/
def variantDispatchOrder : List (String × DynSysTag) :=
  [ ("ExponentialSystem", DynSysTag.exponential)
  , ("SigmoidSystem", DynSysTag.sigmoid)
  , ("SpringDamperSystem", DynSysTag.springDamper)
  , ("TimeSystem", DynSysTag.time) ]

/-! ### FunctionApproximatorRBFN (newer source file, holding the matrices) -/

/-- `FunctionApproximatorRBFN` (the source file that stores `centers_`,
`widths_`, `weights_` directly): `centers` and `widths` are
`n_basis × n_dims` row-major matrices, `weights` the single-column
`n_basis × 1` weight matrix. -/
structure FunctionApproximatorRBFN where
  centers : List (List ℝ)
  widths : List (List ℝ)
  weights : List ℝ

/-- Modelled from the spec: `BasisFunction::Gaussian::activations`
(BasisFunction.cpp is not among the sources).  For
`normalized_basis_functions = false, asymmetric_kernels = false` — the
arguments `predict` passes — §4.2 of the spec gives
`activation[t][b] = exp(−0.5·Σ_d ((inputs[t][d]−centers[b][d])/widths[b][d])²)`.
`rexp` stands for the real exponential. -/
def gaussianActivation (rexp : ℝ → ℝ) (center width input : List ℝ) : ℝ :=
  rexp (-0.5 *
    (List.zipWith (fun cw x => ((x - cw.1) / cw.2) ^ 2) (center.zip width) input).sum)

/-- One row of the activation matrix: the response of every basis function
to one input sample. -/
def kernelActivationsRow (rexp : ℝ → ℝ) (fa : FunctionApproximatorRBFN)
    (input : List ℝ) : List ℝ :=
  (fa.centers.zip fa.widths).map (fun cw => gaussianActivation rexp cw.1 cw.2 input)

/-- The weighted sum computed (identically) by both branches of `predict`:
the activation row is multiplied coefficient-wise by the weights
(`activations.col(b).array() *= weights_(b)`) and summed
(`rowwise().sum()`). -/
def predictRow (rexp : ℝ → ℝ) (fa : FunctionApproximatorRBFN)
    (input : List ℝ) : ℝ :=
  (List.zipWith (fun a w => a * w) (kernelActivationsRow rexp fa input) fa.weights).sum

/-- `FunctionApproximatorRBFN::predict(inputs, outputs)`: when
`inputs.rows() == 1` the real-time path computes the weighted activation
sum of the one row in the preallocated `1 × n_basis` buffer; otherwise the
batch path computes the same weighted sum per row in a freshly allocated
`T × n_basis` buffer.  Buffer management aside, both branches produce one
output per input row. -/
def FunctionApproximatorRBFN.predict (rexp : ℝ → ℝ)
    (fa : FunctionApproximatorRBFN) (inputs : List (List ℝ)) : List ℝ :=
  match inputs with
  | [input] => [predictRow rexp fa input]
  | _ => inputs.map (predictRow rexp fa)

/-- `to_json(nlohmann::json&, const FunctionApproximatorRBFN&)`: writes
`centers_`, `widths_`, `weights_` and the jsonpickle `py/object`
discriminator at top level. -/
def rbfnToJson (fa : FunctionApproximatorRBFN) : JsonVal :=
  JsonVal.obj
    [ ("centers_", matrixToJson fa.centers)
    , ("widths_", matrixToJson fa.widths)
    , ("weights_", vectorToJson fa.weights)
    , ("py/object", JsonVal.str "dynamicalsystems.ModelParametersRBFN.ModelParametersRBFN") ]

/-- `FunctionApproximatorRBFN::from_jsonpickle` (newer source file): reads
`j.at("_model_params")`, then `centers`/`widths`/`weights` each through
their `values` field; `none` models the thrown `json::out_of_range` when a
key is absent. -/
def rbfnFromJsonpickle (j : JsonVal) : Option FunctionApproximatorRBFN := do
  let mp ← jsonAt j "_model_params"
  let centers ← ((jsonAt mp "centers").bind (fun v => jsonAt v "values")).bind jsonToMatrix
  let widths ← ((jsonAt mp "widths").bind (fun v => jsonAt v "values")).bind jsonToMatrix
  let weights ← ((jsonAt mp "weights").bind (fun v => jsonAt v "values")).bind jsonToVector
  pure { centers := centers, widths := widths, weights := weights }

/-! ### The older FunctionApproximatorRBFN (model-parameters pointer) and
its `from_jsonpickle` (src/src/functionapproximators/FunctionApproximatorRBFN.cpp) -/

/-- `ModelParametersRBFN`: centers, widths, weights, owned through a
pointer by the older `FunctionApproximatorRBFN`. -/
structure ModelParametersRBFN where
  centers : List (List ℝ)
  widths : List (List ℝ)
  weights : List ℝ

/-- Modelled from the spec: `ModelParametersRBFN::from_jsonpickle`
(ModelParametersRBFN.cpp is not among the sources); per §6 it reads the
`centers`/`widths`/`weights` matrices through their `values` fields. -/
def modelParametersRBFNFromJsonpickle (j : JsonVal) : Option ModelParametersRBFN := do
  let centers ← ((jsonAt j "centers").bind (fun v => jsonAt v "values")).bind jsonToMatrix
  let widths ← ((jsonAt j "widths").bind (fun v => jsonAt v "values")).bind jsonToMatrix
  let weights ← ((jsonAt j "weights").bind (fun v => jsonAt v "values")).bind jsonToVector
  pure { centers := centers, widths := widths, weights := weights }

/-- The observable outcome of `new FunctionApproximatorRBFN(model)` in the
older source file. -/
inductive RBFNLoadOutcome where
  | ok : ModelParametersRBFN → RBFNLoadOutcome
  | nullModelDereference : RBFNLoadOutcome

/-- The older `FunctionApproximatorRBFN(ModelParametersRBFN*)` constructor:
it unconditionally calls
`preallocateMemory(model_parameters->getNumberOfBasisFunctions())`, so a
null `model_parameters` is dereferenced (no check, no error result). -/
def mkFunctionApproximatorRBFNPtr (model : Option ModelParametersRBFN) :
    RBFNLoadOutcome :=
  match model with
  | some m => RBFNLoadOutcome.ok m
  | none => RBFNLoadOutcome.nullModelDereference

/-- The older `FunctionApproximatorRBFN::from_jsonpickle`:
`model = NULL; if (json.contains("_model_params")) model = ...;
return new FunctionApproximatorRBFN(model);` — a document without the
`_model_params` key reaches the constructor with a null model. -/
def rbfnFromJsonpicklePtr (j : JsonVal) : RBFNLoadOutcome :=
  mkFunctionApproximatorRBFNPtr
    (match jsonAt j "_model_params" with
     | some mp => modelParametersRBFNFromJsonpickle mp
     | none => none)

/-! ### Concrete instances used by the witnesses and counterexamples -/

/-- A concrete Runge-Kutta `DynamicalSystem` (the damped scalar system
`xd = -x`). -/
def rkExampleSystem : DynamicalSystem :=
  { order := 1, tau := 1, initial_state := [0], attractor_state := [0],
    integration_method := IntegrationMethod.RUNGE_KUTTA,
    diffEq := fun v => v.map (fun a => -a) }

/-- The same concrete system with the Euler integration method. -/
def eulerExampleSystem : DynamicalSystem :=
  { rkExampleSystem with integration_method := IntegrationMethod.EULER }

/-- The Exponential system of the spec's §8 test:
`alpha = 1, tau = 1, y_init = [1], y_attr = [0]`. -/
def expUnitSystem : ExponentialSystem :=
  mkExponentialSystem 1 [1] [0] 1

/-- A concrete Exponential system whose integration method is `EULER`. -/
def expEulerSystem : ExponentialSystem :=
  { tau := 2, y_init := [1], y_attr := [0], alpha := 3,
    integration_method := IntegrationMethod.EULER }

/-- A concrete one-basis-function, one-dimensional RBFN. -/
def rbfnExample : FunctionApproximatorRBFN :=
  { centers := [[0]], widths := [[1]], weights := [1] }

/-! ## Theorems -/

/-- Distributing a scalar factor of 2 over a coefficient-wise vector sum. -/
theorem vadd_smul_two (a b c : List ℝ) :
    vadd a (smul 2 (vadd b c)) = vadd (vadd a (smul 2 b)) (smul 2 c) := by
  induction a generalizing b c with
  | nil => rfl
  | cons x xs ih =>
    cases b with
    | nil => rfl
    | cons y ys =>
      cases c with
      | nil => rfl
      | cons z zs =>
        show (x + 2 * (y + z)) :: vadd xs (smul 2 (vadd ys zs)) =
          ((x + 2 * y) + 2 * z) :: vadd (vadd xs (smul 2 ys)) (smul 2 zs)
        rw [ih, show x + 2 * (y + z) = (x + 2 * y) + 2 * z by ring]

/-- C1: with the Runge-Kutta method configured and the precondition
(`dt > 0`, `x.size() == dim`) satisfied, `integrateStep` performs the four
derivative evaluations `k1 = f(x)`, `k2 = f(x + dt/2·k1)`,
`k3 = f(x + dt/2·k2)`, `k4 = f(x + dt·k3)`, returns
`x_updated = x + dt·(k1 + 2·k2 + 2·k3 + k4)/6`, and returns as
`xd_updated` the derivative `f(x_updated)` recomputed at the new state. -/
theorem integrateStep_rungeKutta_correct (s : DynamicalSystem) (dt : ℝ)
    (x : List ℝ) (hm : s.integration_method = IntegrationMethod.RUNGE_KUTTA)
    (hdt : 0 < dt) (hx : x.length = s.dim) :
    integrateStep s dt x =
      some
        (let f := s.diffEq
         let k1 := f x
         let k2 := f (vadd x (smul (dt / 2) k1))
         let k3 := f (vadd x (smul (dt / 2) k2))
         let k4 := f (vadd x (smul dt k3))
         let x_updated :=
           vadd x (sdiv (smul dt (vadd (vadd (vadd k1 (smul 2 k2)) (smul 2 k3)) k4)) 6)
         (x_updated, f x_updated)) := by
  rw [integrateStep, if_pos ⟨hdt, hx⟩, hm, if_pos rfl]
  show some (integrateStepRungeKutta s.diffEq dt x) = _
  rw [integrateStepRungeKutta]
  rw [show dt * 0.5 = dt / 2 by rw [show (0.5 : ℝ) = 1 / 2 by norm_num]; ring]
  rw [vadd_smul_two]

/-- Witness for C1: the Runge-Kutta step of the example system at
`dt = 1`, `x = [2]` is defined (its precondition holds and the theorem
applies). -/
theorem integrateStep_rungeKutta_correct_witness :
    (integrateStep rkExampleSystem 1 [2]).isSome = true := by
  rw [integrateStep_rungeKutta_correct rkExampleSystem 1 [2] rfl one_pos rfl]
  rfl

/-- C2: with the Euler method configured and the precondition satisfied,
`integrateStep` dispatches to the Euler scheme and returns
`x_updated = x + dt·f(x)` and `xd_updated = f(x)`; moreover the
precondition `dt > 0 ∧ x.size() == dim` is checked before the step (a
violating call never reaches an integration scheme). -/
theorem integrateStep_euler_correct (s : DynamicalSystem) (dt : ℝ)
    (x : List ℝ) (hm : s.integration_method = IntegrationMethod.EULER)
    (hdt : 0 < dt) (hx : x.length = s.dim) :
    integrateStep s dt x = some (vadd x (smul dt (s.diffEq x)), s.diffEq x) ∧
    (∀ (dt' : ℝ) (x' : List ℝ), ¬(0 < dt' ∧ x'.length = s.dim) →
      integrateStep s dt' x' = none) := by
  constructor
  · rw [integrateStep, if_pos ⟨hdt, hx⟩, hm]
    rfl
  · intro dt' x' hvio
    rw [integrateStep, if_neg hvio]

/-- Witness for C2: the Euler step of the example system at `dt = 1`,
`x = [2]` is `([2 + 1·(-2)], [-2])`, and the step at `dt = 0` is
rejected. -/
theorem integrateStep_euler_correct_witness :
    integrateStep eulerExampleSystem 1 [2] =
      some (vadd [2] (smul 1 (eulerExampleSystem.diffEq [2])),
            eulerExampleSystem.diffEq [2]) ∧
    integrateStep eulerExampleSystem 0 [2] = none := by
  have h := integrateStep_euler_correct eulerExampleSystem 1 [2] rfl one_pos rfl
  exact ⟨h.1, h.2 0 [2] (by simp)⟩

/-- C3: for the Exponential system, `differentialEquation` returns
`xd = alpha·(ya − x)/tau` coefficient-wise; `analyticalSolution` (before
the orientation handling) returns, at each time `t` of `ts`,
`x(t) = ya + (y0 − ya)·exp(−alpha·t/tau)` and
`xd(t) = −(alpha/tau)·(y0 − ya)·exp(−alpha·t/tau)`; and for
`alpha = 1, tau = 1, y0 = [1], ya = [0]` the solution at `t = tau = 1`
equals `e⁻¹` within tolerance `1e-6`. -/
theorem exponentialSystem_solution_correct (s : ExponentialSystem)
    (x ts : List ℝ) :
    (∀ (d : ℕ) (ya xv : ℝ), s.y_attr[d]? = some ya → x[d]? = some xv →
        (s.differentialEquation x)[d]? = some (s.alpha * (ya - xv) / s.tau)) ∧
    (∀ (i d : ℕ) (t y0 ya : ℝ), ts[i]? = some t → s.y_init[d]? = some y0 →
        s.y_attr[d]? = some ya →
        ((analyticalSolutionTimeMajor Real.exp s ts).1[i]?.bind
            (fun row => row[d]?)) =
          some (ya + (y0 - ya) * Real.exp (-s.alpha * t / s.tau)) ∧
        ((analyticalSolutionTimeMajor Real.exp s ts).2[i]?.bind
            (fun row => row[d]?)) =
          some (-(s.alpha / s.tau) * (y0 - ya) * Real.exp (-s.alpha * t / s.tau))) ∧
    |((analyticalSolutionTimeMajor Real.exp expUnitSystem [1]).1.headD []).headD 0
        - Real.exp (-1)| ≤ 1e-6 := by
  refine ⟨?_, ?_, ?_⟩
  · intro d ya xv hya hx
    simp [ExponentialSystem.differentialEquation, List.getElem?_zipWith', hya, hx]
  · intro i d t y0 ya ht hy0 hya
    constructor
    · simp only [analyticalSolutionTimeMajor, List.getElem?_map, ht, Option.map_some',
        Option.some_bind, List.getElem?_zipWith', hy0, hya, Option.some.injEq]
      ring
    · simp only [analyticalSolutionTimeMajor, List.getElem?_map, ht, Option.map_some',
        Option.some_bind, List.getElem?_zipWith', hy0, hya, Option.some.injEq]
      ring
  · have hval :
        ((analyticalSolutionTimeMajor Real.exp expUnitSystem [1]).1.headD []).headD 0
          = Real.exp (-1) := by
      simp [analyticalSolutionTimeMajor, expUnitSystem, mkExponentialSystem]
    rw [hval]
    simp
    norm_num

/-- Witness for C3: the derivative of the unit Exponential system at
state `[5]`, and the `1e-6` bound of the analytical solution at
`t = tau = 1`, instantiated from the theorem. -/
theorem exponentialSystem_solution_correct_witness :
    (expUnitSystem.differentialEquation [5])[0]? =
      some (expUnitSystem.alpha * (0 - 5) / expUnitSystem.tau) ∧
    |((analyticalSolutionTimeMajor Real.exp expUnitSystem [1]).1.headD []).headD 0
        - Real.exp (-1)| ≤ 1e-6 :=
  ⟨(exponentialSystem_solution_correct expUnitSystem [5] [1]).1 0 0 5 rfl rfl,
   (exponentialSystem_solution_correct expUnitSystem [5] [1]).2.2⟩

/-- C4: `analyticalSolution` tolerates both output-buffer orientations:
when the caller-supplied `xs` has exactly `dim` rows and `T` columns the
time-major solution is transposed and both outputs come back `dim × T`;
for every other pre-existing shape the outputs are the time-major
`T × dim` matrices. -/
theorem analyticalSolution_orientation (s : ExponentialSystem) (ts : List ℝ)
    (r c : ℕ) (hT : ts ≠ [])
    (hlen : s.y_attr.length = s.y_init.length) :
    (r = s.dim ∧ c = ts.length →
      s.analyticalSolution Real.exp ts r c =
        (transposeMat (analyticalSolutionTimeMajor Real.exp s ts).1 s.dim,
         transposeMat (analyticalSolutionTimeMajor Real.exp s ts).2 s.dim) ∧
      (s.analyticalSolution Real.exp ts r c).1.length = s.dim ∧
      (s.analyticalSolution Real.exp ts r c).2.length = s.dim ∧
      (∀ row ∈ (s.analyticalSolution Real.exp ts r c).1, row.length = ts.length) ∧
      (∀ row ∈ (s.analyticalSolution Real.exp ts r c).2, row.length = ts.length)) ∧
    (¬(r = s.dim ∧ c = ts.length) →
      s.analyticalSolution Real.exp ts r c = analyticalSolutionTimeMajor Real.exp s ts ∧
      (s.analyticalSolution Real.exp ts r c).1.length = ts.length ∧
      (s.analyticalSolution Real.exp ts r c).2.length = ts.length ∧
      (∀ row ∈ (s.analyticalSolution Real.exp ts r c).1, row.length = s.dim) ∧
      (∀ row ∈ (s.analyticalSolution Real.exp ts r c).2, row.length = s.dim)) := by
  constructor
  · intro hshape
    have heq : s.analyticalSolution Real.exp ts r c =
        (transposeMat (analyticalSolutionTimeMajor Real.exp s ts).1 s.dim,
         transposeMat (analyticalSolutionTimeMajor Real.exp s ts).2 s.dim) := by
      rw [ExponentialSystem.analyticalSolution, if_pos hshape]
    refine ⟨heq, ?_, ?_, ?_, ?_⟩
    · rw [heq]; simp [transposeMat]
    · rw [heq]; simp [transposeMat]
    · rw [heq]
      intro row hmem
      simp only [transposeMat, List.mem_map] at hmem
      obtain ⟨cc, -, rfl⟩ := hmem
      simp [analyticalSolutionTimeMajor]
    · rw [heq]
      intro row hmem
      simp only [transposeMat, List.mem_map] at hmem
      obtain ⟨cc, -, rfl⟩ := hmem
      simp [analyticalSolutionTimeMajor]
  · intro hshape
    have heq : s.analyticalSolution Real.exp ts r c =
        analyticalSolutionTimeMajor Real.exp s ts := by
      rw [ExponentialSystem.analyticalSolution, if_neg hshape]
    have hrow : min s.y_init.length s.y_attr.length = s.dim := by
      rw [hlen]
      simp [ExponentialSystem.dim]
    refine ⟨heq, ?_, ?_, ?_, ?_⟩
    · rw [heq]; simp [analyticalSolutionTimeMajor]
    · rw [heq]; simp [analyticalSolutionTimeMajor]
    · rw [heq]
      intro row hmem
      simp only [analyticalSolutionTimeMajor, List.mem_map] at hmem
      obtain ⟨t, -, rfl⟩ := hmem
      simpa [List.length_zipWith] using hrow
    · rw [heq]
      intro row hmem
      simp only [analyticalSolutionTimeMajor, List.mem_map] at hmem
      obtain ⟨t, -, rfl⟩ := hmem
      simpa [List.length_zipWith] using hrow

/-- Witness for C4: for the unit Exponential system and `ts = [1, 2]`, a
caller-supplied `1 × 2` (`dim × T`) buffer makes the solution come back
with `dim = 1` rows. -/
theorem analyticalSolution_orientation_witness :
    (expUnitSystem.analyticalSolution Real.exp [1, 2] 1 2).1.length
      = expUnitSystem.dim :=
  ((analyticalSolution_orientation expUnitSystem [1, 2] 1 2
      (by simp) rfl).1 ⟨rfl, rfl⟩).2.1

/-- Reading back a vector serialized by the eigen_json writer gives the
original vector. -/
theorem jsonToVector_vectorToJson (l : List ℝ) :
    jsonToVector (JsonVal.arr (l.map JsonVal.num)) = some l := by
  induction l with
  | nil => rfl
  | cons x xs ih =>
    simp only [jsonToVector] at ih
    simp [jsonToVector, jsonNums, from_json_to_double, ih]

/-- C5 (amended): serializing an `ExponentialSystem` to its document form
and deserializing that document restores `tau`, `initial_state`,
`attractor_state`, `alpha` (hence also `dim` and `dim_orig`) exactly; the
integration method is persisted as the string `"EULER"`/`"RUNGE_KUTTA"`
but is not read back: the deserialized system always carries the
constructor default `RUNGE_KUTTA`. -/
theorem exponentialSystem_roundtrip (s : ExponentialSystem) :
    exponentialSystemFromJson s.to_json_helper =
      some { s with integration_method := IntegrationMethod.RUNGE_KUTTA } ∧
    jsonAt s.to_json_helper "integration_method_" =
      some (JsonVal.str (if s.integration_method = IntegrationMethod.EULER
                         then "EULER" else "RUNGE_KUTTA")) := by
  constructor
  · simp [exponentialSystemFromJson, ExponentialSystem.to_json_helper, to_json_base,
      jsonSet, jsonAt, vectorToJson, from_json_to_double, jsonToVector_vectorToJson,
      mkExponentialSystem]
  · simp [ExponentialSystem.to_json_helper, to_json_base, jsonSet, jsonAt]

/-- Counterexample for C5: an Exponential system configured with the
`EULER` method does not round-trip: the deserialized system's integration
method is `RUNGE_KUTTA`. -/
theorem exponentialSystem_roundtrip_counterexample :
    expEulerSystem.integration_method = IntegrationMethod.EULER ∧
    (exponentialSystemFromJson expEulerSystem.to_json_helper).map
        (fun s' => s'.integration_method) =
      some IntegrationMethod.RUNGE_KUTTA := by
  constructor
  · rfl
  · simp [exponentialSystemFromJson, ExponentialSystem.to_json_helper, to_json_base,
      jsonSet, jsonAt, vectorToJson, from_json_to_double, jsonToVector, jsonNums,
      mkExponentialSystem, expEulerSystem]

/-- C6: a persisted document whose discriminator contains none of the four
variant names yields a null object together with the diagnostic message;
no silently-defaulted object is produced. -/
theorem unknown_discriminator_null (class_name : String)
    (h1 : strContainsSub class_name "ExponentialSystem" = false)
    (h2 : strContainsSub class_name "SigmoidSystem" = false)
    (h3 : strContainsSub class_name "SpringDamperSystem" = false)
    (h4 : strContainsSub class_name "TimeSystem" = false) :
    dynamicalSystemFromJsonByName class_name =
      (none, some ("Unknown DynamicalSystem: " ++ class_name)) := by
  simp [dynamicalSystemFromJsonByName, h1, h2, h3, h4]

/-- Witness for C6: the unknown discriminator `"Foo"` yields a null
object and the diagnostic. -/
theorem unknown_discriminator_null_witness :
    dynamicalSystemFromJsonByName "Foo" =
      (none, some ("Unknown DynamicalSystem: " ++ "Foo")) :=
  unknown_discriminator_null "Foo" (by decide) (by decide) (by decide) (by decide)

/-- C10: the polymorphic deserializer decides the concrete type by
substring containment tried in the fixed order Exponential, Sigmoid,
SpringDamper, Time: whenever the discriminator contains at least two of
the four variant names, the constructed variant is the first match in
that order. -/
theorem dispatch_first_match_in_order (class_name : String)
    (h : 2 ≤ variantDispatchOrder.countP (fun p => strContainsSub class_name p.1)) :
    (dynamicalSystemFromJsonByName class_name).1 =
      (variantDispatchOrder.find? (fun p => strContainsSub class_name p.1)).map
        (fun p => p.2) := by
  cases hE : strContainsSub class_name "ExponentialSystem" <;>
    cases hS : strContainsSub class_name "SigmoidSystem" <;>
      cases hD : strContainsSub class_name "SpringDamperSystem" <;>
        cases hTm : strContainsSub class_name "TimeSystem" <;>
          simp_all [dynamicalSystemFromJsonByName, variantDispatchOrder]

/-- Witness for C10: `"SigmoidSystemTimeSystem"` contains two variant
names, and the first in dispatch order (Sigmoid) is the one produced. -/
theorem dispatch_first_match_in_order_witness :
    2 ≤ variantDispatchOrder.countP
          (fun p => strContainsSub "SigmoidSystemTimeSystem" p.1) ∧
    (dynamicalSystemFromJsonByName "SigmoidSystemTimeSystem").1 =
      (variantDispatchOrder.find?
          (fun p => strContainsSub "SigmoidSystemTimeSystem" p.1)).map
        (fun p => p.2) :=
  ⟨by decide, dispatch_first_match_in_order "SigmoidSystemTimeSystem" (by decide)⟩

/-- Both branches of `predict` compute one weighted activation sum per
input row. -/
theorem predict_eq_map (rexp : ℝ → ℝ) (fa : FunctionApproximatorRBFN) :
    ∀ inputs, fa.predict rexp inputs = inputs.map (predictRow rexp fa)
  | [] => rfl
  | [_] => rfl
  | _ :: _ :: _ => rfl

/-- C7: `predict` on the single-row matrix `[r]` (the real-time-safe
path) yields the same numeric output as the `t`-th row of `predict` on
any batch whose `t`-th row is `r`, and on every input both paths compute
`outputs[t] = Σ_b activations[t][b]·weights[b]`. -/
theorem rbfn_predict_batch_consistent (fa : FunctionApproximatorRBFN)
    (batch : List (List ℝ)) (t : ℕ) (r : List ℝ) (h : batch[t]? = some r) :
    (fa.predict Real.exp [r])[0]? = (fa.predict Real.exp batch)[t]? ∧
    ∀ (inputs : List (List ℝ)) (u : ℕ),
      (fa.predict Real.exp inputs)[u]? = (inputs[u]?).map (fun row =>
        (List.zipWith (fun a w => a * w)
          (kernelActivationsRow Real.exp fa row) fa.weights).sum) := by
  constructor
  · rw [predict_eq_map, predict_eq_map]
    simp [List.getElem?_map, h]
  · intro inputs u
    rw [predict_eq_map]
    simp only [List.getElem?_map]
    rfl

/-- Witness for C7: the single-sample prediction of the example RBFN at
`[1]` equals entry 1 of the batch prediction on `[[0], [1]]`. -/
theorem rbfn_predict_batch_consistent_witness :
    (rbfnExample.predict Real.exp [[1]])[0]? =
      (rbfnExample.predict Real.exp [[0], [1]])[1]? :=
  (rbfn_predict_batch_consistent rbfnExample [[0], [1]] 1 [1] rfl).1

/-- C8 (amended): the RBFN serializer emits a flat document with the
matrices under `centers_`, `widths_`, `weights_` plus the `py/object`
discriminator naming the parameter-model type, while the deserializer
reads the nested `_model_params`/`centers`/`widths`/`weights` layout; the
emitted document has no `_model_params` key, so deserializing the
serializer's own output fails (for every RBFN) instead of reproducing the
original. -/
theorem rbfn_serialization_mismatch (fa : FunctionApproximatorRBFN) :
    jsonAt (rbfnToJson fa) "centers_" = some (matrixToJson fa.centers) ∧
    jsonAt (rbfnToJson fa) "widths_" = some (matrixToJson fa.widths) ∧
    jsonAt (rbfnToJson fa) "weights_" = some (vectorToJson fa.weights) ∧
    jsonAt (rbfnToJson fa) "py/object" =
      some (JsonVal.str "dynamicalsystems.ModelParametersRBFN.ModelParametersRBFN") ∧
    jsonAt (rbfnToJson fa) "_model_params" = none ∧
    rbfnFromJsonpickle (rbfnToJson fa) = none :=
  ⟨rfl, rfl, rfl, rfl, rfl, rfl⟩

/-- Counterexample for C8: deserializing the serialized form of the
concrete example RBFN does not succeed (so it does not reproduce the
original centers, widths and weights). -/
theorem rbfn_serialization_counterexample :
    rbfnFromJsonpickle (rbfnToJson rbfnExample) = none := rfl

/-- C9 (code behaviour at the failing input): deserializing an RBFN
document without the `_model_params` key does not surface an error
result; the null model pointer reaches the constructor, which
dereferences it. -/
theorem rbfn_missing_model_params_dereferences_null (j : JsonVal)
    (h : jsonAt j "_model_params" = none) :
    rbfnFromJsonpicklePtr j = RBFNLoadOutcome.nullModelDereference := by
  simp [rbfnFromJsonpicklePtr, h, mkFunctionApproximatorRBFNPtr]

/-- Witness for C9: the empty document (no `_model_params` key) drives
the constructor into the null-model dereference. -/
theorem rbfn_missing_model_params_dereferences_null_witness :
    rbfnFromJsonpicklePtr (JsonVal.obj []) =
      RBFNLoadOutcome.nullModelDereference :=
  rbfn_missing_model_params_dereferences_null (JsonVal.obj []) rfl

end DmpBbo

end
